import Mathlib

/-
  Verification development for the complaint-box backend identity and
  verification subsystem.  The definitions below are shallow embeddings of
  the TypeScript source: the three identity collections (Student, Faculty,
  Admin), the user service helpers, the JWT issue/authenticate pair, the
  one-time verification-code ledger, and the auth routes that the claims
  reference.  Stateful Mongoose operations are modelled by explicit state
  passing on list-based stores; bcrypt hashing is abstracted by a hash
  function parameter.
-/

namespace CB

/-- The closed role set of the system. -/
inductive Role
  | student
  | faculty
  | admin
deriving DecidableEq, Repr

/-- Role tag as the string stored in JWT payloads. -/
def roleStr : Role → String
  | .student => "student"
  | .faculty => "faculty"
  | .admin => "admin"

/-- JS String.toLowerCase, modelled on the character list underlying the
string (the usernames and emails at issue are ASCII). -/
def lowerStr (s : String) : String := ⟨s.data.map Char.toLower⟩

/-- An identity document as persisted in one of the three collections
(models Student, Faculty and Admin schemas; the fields the claims touch). -/
structure UserDoc where
  id : String
  name : String
  username : String
  email : String
  password : String
deriving DecidableEq, Repr

/-- The three parallel identity collections. -/
structure DB where
  students : List UserDoc
  faculties : List UserDoc
  admins : List UserDoc
deriving DecidableEq, Repr

/-- The collection belonging to a role tag. -/
def coll (db : DB) : Role → List UserDoc
  | .student => db.students
  | .faculty => db.faculties
  | .admin => db.admins

/-- Model.findById on one collection. -/
def findById (l : List UserDoc) (id : String) : Option UserDoc :=
  l.find? (fun u => u.id == id)

/-- Model.findOne on the username field of one collection. -/
def findByUsername (l : List UserDoc) (uname : String) : Option UserDoc :=
  l.find? (fun u => u.username == uname)

/-- Model.findOne on the email field of one collection. -/
def findByEmail (l : List UserDoc) (email : String) : Option UserDoc :=
  l.find? (fun u => u.email == email)

/-- bcrypt.compare modelled against an abstract salted hash function h:
the candidate matches iff hashing it reproduces the stored string
(models the comparePassword schema method). -/
def comparePassword (h : String → String) (candidate stored : String) : Bool :=
  h candidate == stored

/-- userService.findUserForLogin: a role hint selects exactly one
collection; the input username is lowercased first.  The student branch is
the catch-all, exactly as in the source. -/
def findUserForLogin (db : DB) (username : String) (role : Role) :
    Option UserDoc × Role :=
  let uname := lowerStr username
  match role with
  | .faculty => (findByUsername db.faculties uname, .faculty)
  | .admin => (findByUsername db.admins uname, .admin)
  | .student => (findByUsername db.students uname, .student)

/-- userService.findUserById: search Student, then Faculty, then Admin. -/
def findUserById (db : DB) (id : String) : Option (Role × UserDoc) :=
  match findById db.students id with
  | some u => some (.student, u)
  | none =>
    match findById db.faculties id with
    | some u => some (.faculty, u)
    | none => (findById db.admins id).map (fun u => (.admin, u))

/-- userService.usernameOrEmailExists: both booleans consult all three
collections, on lowercased inputs. -/
def usernameOrEmailExists (db : DB) (username email : String) : Bool × Bool :=
  let uname := lowerStr username
  let e := lowerStr email
  ((findByUsername db.students uname).isSome
     || (findByUsername db.faculties uname).isSome
     || (findByUsername db.admins uname).isSome,
   (findByEmail db.students e).isSome
     || (findByEmail db.faculties e).isSome
     || (findByEmail db.admins e).isSome)

/-- userService.createUserByRole: a new document is saved, so the
collection pre-save hook hashes the password before persisting. -/
def createUserByRole (h : String → String) (db : DB) (doc : UserDoc)
    (role : Role) : DB :=
  let saved := { doc with password := h doc.password }
  match role with
  | .faculty => { db with faculties := db.faculties ++ [saved] }
  | .admin => { db with admins := db.admins ++ [saved] }
  | .student => { db with students := db.students ++ [saved] }

/-- Outcome of POST /auth/signup. -/
inductive SignupResult
  | usernameTaken
  | emailTaken
  | created (db : DB) (role : Role)
deriving DecidableEq, Repr

/-- The signup route: pre-checks username and email across all three
collections, then creates in the collection selected by the requested
role, lowercasing username and email. -/
def signup (h : String → String) (db : DB) (doc : UserDoc) (role : Role) :
    SignupResult :=
  let ex := usernameOrEmailExists db doc.username doc.email
  if ex.1 then .usernameTaken
  else if ex.2 then .emailTaken
  else
    .created
      (createUserByRole h db
        { doc with username := lowerStr doc.username, email := lowerStr doc.email }
        role)
      role

end CB

namespace CB

/-- A signed bearer token (jwt.sign output): payload fields plus the
signing secret and the absolute expiry instant in milliseconds. -/
structure Token where
  userId : String
  role : Option String
  secret : String
  expiresAtMs : Nat
deriving DecidableEq, Repr

/-- Default JWT lifetime: the 7d fallback of JWT_EXPIRES_IN. -/
def sevenDaysMs : Nat := 7 * 24 * 60 * 60 * 1000

/-- generateToken from routes/auth.ts: the secret falls back to the
constant string when JWT_SECRET is unset, and the expiry window falls back
to seven days when JWT_EXPIRES_IN is unset. -/
def generateToken (envSecret : Option String) (envExpiresMs : Option Nat)
    (nowMs : Nat) (userId : String) (role : Option String) : Token :=
  { userId := userId
    role := role
    secret := envSecret.getD "fallback-secret"
    expiresAtMs := nowMs + envExpiresMs.getD sevenDaysMs }

/-- A decoded token payload. -/
structure Payload where
  userId : String
  role : Option String
deriving DecidableEq, Repr

/-- jwt.verify: succeeds iff the token was signed with the given secret
and has not expired; otherwise it throws, modelled as none. -/
def jwtVerify (tok : Token) (secret : String) (nowMs : Nat) : Option Payload :=
  if tok.secret = secret ∧ nowMs ≤ tok.expiresAtMs then
    some { userId := tok.userId, role := tok.role }
  else none

/-- Outcome of the authenticate middleware. -/
inductive AuthOutcome
  | missingToken
  | invalidToken
  | userNotFound
  | ok (role : Role) (user : UserDoc)
deriving DecidableEq, Repr

/-- The collection dispatch of the authenticate middleware: a recognised
role string selects one collection; anything else falls back to Student,
then Faculty, then Admin. -/
def lookupByTokenRole (db : DB) (p : Payload) : Option (Role × UserDoc) :=
  if p.role = some "faculty" then
    (findById db.faculties p.userId).map (fun u => (.faculty, u))
  else if p.role = some "admin" then
    (findById db.admins p.userId).map (fun u => (.admin, u))
  else if p.role = some "student" then
    (findById db.students p.userId).map (fun u => (.student, u))
  else
    match findById db.students p.userId with
    | some u => some (.student, u)
    | none =>
      match findById db.faculties p.userId with
      | some u => some (.faculty, u)
      | none => (findById db.admins p.userId).map (fun u => (.admin, u))

/-- middleware/auth.ts authenticate: missing header, then jwt.verify with
the same fallback secret, then collection dispatch on the payload role. -/
def authenticate (envSecret : Option String) (nowMs : Nat) (db : DB)
    (header : Option Token) : AuthOutcome :=
  match header with
  | none => .missingToken
  | some tok =>
    match jwtVerify tok (envSecret.getD "fallback-secret") nowMs with
    | none => .invalidToken
    | some p =>
      match lookupByTokenRole db p with
      | none => .userNotFound
      | some (r, u) => .ok r u

/-- A stored verification-code document (models VerificationCode). -/
structure CodeRecord where
  email : String
  code : String
  expiresAtMs : Nat
deriving DecidableEq, Repr

/-- The verification-code collection, in natural (insertion) order. -/
abbrev Ledger := List CodeRecord

/-- The 10-minute code lifetime used by the send-code route. -/
def tenMinutesMs : Nat := 10 * 60 * 1000

/-- VerificationCode.create: the pre-save hook first runs deleteMany on
the same email, then the new document is inserted. -/
def issueCode (led : Ledger) (email code : String) (nowMs : Nat) : Ledger :=
  led.filter (fun r => r.email != email)
    ++ [{ email := email, code := code, expiresAtMs := nowMs + tenMinutesMs }]

/-- VerificationCode.deleteOne on an email filter: removes the first
matching document in natural order. -/
def deleteOneByEmail : Ledger → String → Ledger
  | [], _ => []
  | r :: rest, e => if r.email = e then rest else r :: deleteOneByEmail rest e

/-- The distinct user-facing outcomes of the verify-code route. -/
inductive VerifyOutcome
  | notFound
  | expired
  | mismatch
  | success
deriving DecidableEq, Repr

/-- PATCH /auth/admin/verify-code: findOne by email, then the expiry
check (strict: now strictly after expiresAt), then exact string
comparison of codes; the code record is removed on expiry and on
success. -/
def verifyCode (led : Ledger) (email code : String) (nowMs : Nat) :
    VerifyOutcome × Ledger :=
  match led.find? (fun r => r.email == email) with
  | none => (.notFound, led)
  | some r =>
    if r.expiresAtMs < nowMs then (.expired, deleteOneByEmail led email)
    else if r.code ≠ code then (.mismatch, led)
    else (.success, deleteOneByEmail led email)

/-- Number of ledger records bound to an email. -/
def countEmail (led : Ledger) (email : String) : Nat :=
  (led.filter (fun r => r.email == email)).length

/-- Math.random modelled as k / 2^53 for k below 2^53 (the double
produced by the V8 generator is a dyadic rational of this form). -/
def two53 : Nat := 2 ^ 53

/-- The code generator of the send-code route:
Math.floor(100000 + Math.random() * 900000) for randomness k. -/
def genCode (k : Nat) : Nat := 100000 + k * 900000 / two53

/-- The generated code as the string actually stored and mailed. -/
def genCodeStr (k : Nat) : String := toString (genCode k)

/-- Outcome of PATCH /auth/admin/send-code. -/
inductive SendCodeResult
  | adminNotFound
  | sent (code : String) (led : Ledger)
deriving DecidableEq, Repr

/-- PATCH /auth/admin/send-code: resolve an admin by lowercased email,
then generate the code and store it with a 10-minute expiry through
VerificationCode.create. -/
def sendCode (db : DB) (led : Ledger) (email : String) (k nowMs : Nat) :
    SendCodeResult :=
  match findByEmail db.admins (lowerStr email) with
  | none => .adminNotFound
  | some _ => .sent (genCodeStr k) (issueCode led email (genCodeStr k) nowMs)

/-- An HTTP response of the login routes: status, error body, and the
success payload when present. -/
structure HttpResp where
  status : Nat
  errorMsg : Option String
  token : Option Token
  userId : Option String
deriving DecidableEq, Repr

/-- The uniform 401 response of both login routes. -/
def invalidCredResp : HttpResp :=
  { status := 401, errorMsg := some "Invalid credentials", token := none, userId := none }

/-- POST /auth/login: resolve by username with the role hint, compare the
password, and issue a token carrying the requested role. -/
def login (h : String → String) (envSecret : Option String)
    (envExpiresMs : Option Nat) (nowMs : Nat) (db : DB)
    (username password : String) (role : Role) : HttpResp :=
  match (findUserForLogin db username role).1 with
  | none => invalidCredResp
  | some u =>
    if comparePassword h password u.password then
      { status := 200
        errorMsg := none
        token := some (generateToken envSecret envExpiresMs nowMs u.id (some (roleStr role)))
        userId := some u.id }
    else invalidCredResp

/-- POST /auth/admin/login: resolve an admin by lowercased email, compare
the password, and issue an admin token; both failure branches return the
same 401 response. -/
def adminLogin (h : String → String) (envSecret : Option String)
    (envExpiresMs : Option Nat) (nowMs : Nat) (db : DB)
    (email password : String) : HttpResp :=
  match findByEmail db.admins (lowerStr email) with
  | none => invalidCredResp
  | some u =>
    if comparePassword h password u.password then
      { status := 200
        errorMsg := none
        token := some (generateToken envSecret envExpiresMs nowMs u.id (some "admin"))
        userId := some u.id }
    else invalidCredResp

/-- A profile-update patch (the request body of PUT /auth/profile). -/
structure UpdatePatch where
  name : Option String := none
  email : Option String := none
  password : Option String := none
  role : Option String := none
deriving DecidableEq, Repr

/-- findByIdAndUpdate: the patch fields are written directly onto the
document; the pre-save hook does not run on this operation, so the
password field receives the patch value verbatim. -/
def applyFindByIdAndUpdate (u : UserDoc) (p : UpdatePatch) : UserDoc :=
  { u with
    name := p.name.getD u.name
    email := (p.email.map lowerStr).getD u.email
    password := p.password.getD u.password }

/-- Replace a document in a collection by id. -/
def replaceById (l : List UserDoc) (id : String) (u : UserDoc) : List UserDoc :=
  l.map (fun v => if v.id == id then u else v)

/-- Outcome of userService.updateUserById. -/
inductive UpdateResult
  | roleRejected
  | notFound
  | updated (db : DB) (u : UserDoc)
deriving DecidableEq, Repr

/-- userService.updateUserById: reject a patch naming a role, locate the
document across the collections, then dispatch a findByIdAndUpdate on the
owning collection. -/
def updateUserById (db : DB) (id : String) (p : UpdatePatch) : UpdateResult :=
  if p.role.isSome then .roleRejected
  else
    match findUserById db id with
    | none => .notFound
    | some (r, u) =>
      let u2 := applyFindByIdAndUpdate u p
      match r with
      | .student => .updated { db with students := replaceById db.students id u2 } u2
      | .faculty => .updated { db with faculties := replaceById db.faculties id u2 } u2
      | .admin => .updated { db with admins := replaceById db.admins id u2 } u2

/-- Outcome of POST /auth/change-password. -/
inductive ChangePwResult
  | notFound
  | wrongCurrent
  | changed (db : DB)
deriving DecidableEq, Repr

/-- Replace an identity document in its collection. -/
def storeDoc (db : DB) (r : Role) (id : String) (u : UserDoc) : DB :=
  match r with
  | .student => { db with students := replaceById db.students id u }
  | .faculty => { db with faculties := replaceById db.faculties id u }
  | .admin => { db with admins := replaceById db.admins id u }

/-- POST /auth/change-password: fetch the document with its password,
compare the current password, set the new one and save; the save runs the
pre-save hook, which hashes because the password field was modified. -/
def changePassword (h : String → String) (db : DB) (id current newPass : String) :
    ChangePwResult :=
  match findUserById db id with
  | none => .notFound
  | some (r, u) =>
    if comparePassword h current u.password then
      .changed (storeDoc db r id { u with password := h newPass })
    else .wrongCurrent

/-- A concrete stand-in for a salted bcrypt hash, used in concrete
instances: injective and never the identity on its input. -/
def testHash (s : String) : String := String.append "bcrypt2b10" s

/-- Concrete store for the C1 scenario: one Student named amy. -/
def c1db : DB :=
  { students := [⟨"s1", "Amy", "amy", "amy@x.com", "h1"⟩]
    faculties := []
    admins := [] }

/-- Concrete store for the C3 witness. -/
def c3db : DB :=
  { students := [⟨"u1", "Nia", "nia", "nia@x.com", "p"⟩]
    faculties := []
    admins := [] }

/-- Concrete store for the C4 failing input: one Student whose stored
credential is the hash of oldpass1. -/
def c4db : DB :=
  { students := [⟨"u1", "Amy", "amy", "amy@x.com", "bcrypt2b10oldpass1"⟩]
    faculties := []
    admins := [] }

/-- Concrete store for the C8 witness: amy exists only as a Student. -/
def c8db : DB :=
  { students := [⟨"s1", "Amy", "amy", "amy@x.com", "bcrypt2b10pw"⟩]
    faculties := [⟨"f1", "Bob", "bob", "bob@x.com", "bcrypt2b10pw"⟩]
    admins := [] }

/-- Concrete admin document for the C9 witness. -/
def c9admin : UserDoc := ⟨"a1", "Root", "root", "admin@x.com", "bcrypt2b10secret"⟩

/-- Concrete store with no admin account for the C9 witness. -/
def c9dbAbsent : DB := { students := [], faculties := [], admins := [] }

/-- Concrete store holding the C9 admin. -/
def c9dbPresent : DB := { students := [], faculties := [], admins := [c9admin] }

/-- Concrete faculty document for the C10 witness. -/
def c10fac : UserDoc := ⟨"u9", "Fay", "fay", "fay@x.com", "p"⟩

/-- Concrete store for the C10 witness: the id exists only as Faculty. -/
def c10db : DB := { students := [], faculties := [c10fac], admins := [] }

/-- A validly signed token whose payload role is outside the closed role
set, for the C10 witness. -/
def c10tok : Token :=
  { userId := "u9", role := some "ghost", secret := "fallback-secret", expiresAtMs := 99 }

/-! ### Ledger lemmas -/

theorem jwtVerify_generateToken (envSecret : Option String)
    (envExpiresMs : Option Nat) (nowMs : Nat) (id : String) (role : Option String) :
    jwtVerify (generateToken envSecret envExpiresMs nowMs id role)
      (envSecret.getD "fallback-secret") nowMs = some ⟨id, role⟩ := by
  unfold jwtVerify generateToken
  rw [if_pos ⟨rfl, Nat.le_add_right _ _⟩]

theorem filter_ne_no_match (led : Ledger) (e : String) :
    (led.filter (fun r => r.email != e)).find? (fun r => r.email == e) = none := by
  rw [List.find?_eq_none]
  intro x hx
  have hne := List.of_mem_filter hx
  simp only [bne_iff_ne, ne_eq] at hne
  simp [hne]

theorem find?_issueCode (led : Ledger) (e c : String) (t : Nat) :
    (issueCode led e c t).find? (fun r => r.email == e) =
      some { email := e, code := c, expiresAtMs := t + tenMinutesMs } := by
  unfold issueCode
  rw [List.find?_append, filter_ne_no_match]
  simp [List.find?]

theorem countEmail_issueCode (led : Ledger) (e c : String) (t : Nat) :
    countEmail (issueCode led e c t) e = 1 := by
  unfold countEmail issueCode
  rw [List.filter_append]
  have h1 : (led.filter (fun r => r.email != e)).filter (fun r => r.email == e) = [] := by
    rw [List.filter_eq_nil_iff]
    intro x hx
    have hne := List.of_mem_filter hx
    simp only [bne_iff_ne, ne_eq] at hne
    simp [hne]
  rw [h1]
  simp [List.filter]

theorem countEmail_eq_zero_iff (led : Ledger) (e : String) :
    countEmail led e = 0 ↔ led.find? (fun r => r.email == e) = none := by
  unfold countEmail
  rw [List.length_eq_zero, List.filter_eq_nil_iff, List.find?_eq_none]

theorem countEmail_deleteOne_zero (led : Ledger) (e : String)
    (hle : countEmail led e ≤ 1) (r : CodeRecord)
    (hf : led.find? (fun x => x.email == e) = some r) :
    countEmail (deleteOneByEmail led e) e = 0 := by
  induction led with
  | nil => simp [List.find?] at hf
  | cons a t ih =>
    by_cases ha : a.email = e
    · have hbe : (a.email == e) = true := beq_iff_eq.mpr ha
      have hcons : countEmail (a :: t) e = countEmail t e + 1 := by
        unfold countEmail
        simp [List.filter_cons, hbe]
      simp only [deleteOneByEmail, if_pos ha]
      omega
    · have hbe : (a.email == e) = false := beq_eq_false_iff_ne.mpr ha
      have hcons : countEmail (a :: t) e = countEmail t e := by
        unfold countEmail
        simp [List.filter_cons, hbe]
      have hft : t.find? (fun x => x.email == e) = some r := by
        simpa [List.find?_cons, hbe] using hf
      have h0 := ih (by omega) hft
      simp only [deleteOneByEmail, if_neg ha]
      unfold countEmail at h0 ⊢
      simpa [List.filter_cons, hbe] using h0

/-- C2: for every email and submitted code, code verification checks
existence, then expiry, then match, with mutually exclusive outcomes:
NotFound when no record exists; Expired with deletion of the stale record
when now is strictly after expiresAt; Mismatch when the stored and
submitted codes differ; and on exact match the record is deleted and
verification succeeds, after which a second verify with the same code
fails NotFound (single-use, given the at-most-one-record-per-email
invariant the issue path maintains). -/
theorem c2_verify_code_semantics (led : Ledger) (email code : String) (nowMs : Nat) :
    (led.find? (fun r => r.email == email) = none →
      verifyCode led email code nowMs = (.notFound, led)) ∧
    (∀ r, led.find? (fun r => r.email == email) = some r →
      (r.expiresAtMs < nowMs →
        verifyCode led email code nowMs = (.expired, deleteOneByEmail led email)) ∧
      (¬ r.expiresAtMs < nowMs → r.code ≠ code →
        verifyCode led email code nowMs = (.mismatch, led)) ∧
      (¬ r.expiresAtMs < nowMs → r.code = code →
        verifyCode led email code nowMs = (.success, deleteOneByEmail led email) ∧
        (countEmail led email ≤ 1 →
          verifyCode (deleteOneByEmail led email) email code nowMs =
            (.notFound, deleteOneByEmail led email)))) := by
  refine ⟨fun hnone => ?_, fun r hr => ⟨fun hexp => ?_, fun hexp hne => ?_, fun hexp heq => ⟨?_, fun hinv => ?_⟩⟩⟩
  · simp only [verifyCode, hnone]
  · simp only [verifyCode, hr]
    rw [if_pos hexp]
  · simp only [verifyCode, hr]
    rw [if_neg hexp, if_pos hne]
  · simp only [verifyCode, hr]
    rw [if_neg hexp, if_neg (fun hn => hn heq)]
  · have h0 := countEmail_deleteOne_zero led email hinv r hr
    have hnone := (countEmail_eq_zero_iff _ _).mp h0
    simp only [verifyCode, hnone]

/-- C2 witness: on a concrete one-record ledger, the fresh matching code
verifies successfully and a repeated verify fails NotFound. -/
theorem c2_witness :
    ([⟨"a@x.com", "123456", 1000⟩] : Ledger).find? (fun r => r.email == "a@x.com") =
        some ⟨"a@x.com", "123456", 1000⟩ ∧
      ¬ (1000 : Nat) < 500 ∧ "123456" = "123456" ∧
      countEmail [⟨"a@x.com", "123456", 1000⟩] "a@x.com" ≤ 1 ∧
      (verifyCode [⟨"a@x.com", "123456", 1000⟩] "a@x.com" "123456" 500 =
          (.success, deleteOneByEmail [⟨"a@x.com", "123456", 1000⟩] "a@x.com") ∧
        verifyCode (deleteOneByEmail [⟨"a@x.com", "123456", 1000⟩] "a@x.com")
            "a@x.com" "123456" 500 =
          (.notFound, deleteOneByEmail [⟨"a@x.com", "123456", 1000⟩] "a@x.com")) := by
  refine ⟨by decide, by decide, rfl, by decide, ?_⟩
  have h := (c2_verify_code_semantics [⟨"a@x.com", "123456", 1000⟩] "a@x.com" "123456" 500).2
      ⟨"a@x.com", "123456", 1000⟩ (by decide)
  have h2 := (h.2.2 (by decide) rfl)
  exact ⟨h2.1, h2.2 (by decide)⟩

/-- C5: issuing a code deletes every prior code for the email, so after
two consecutive issues exactly one record remains, verifying the first
(distinct) code within the validity window fails with Mismatch, and the
second code verifies successfully. -/
theorem c5_reissue_invalidates_prior (led : Ledger) (email c1 c2 : String)
    (t1 t2 nowMs : Nat) (hne : c1 ≠ c2) (hfresh : nowMs ≤ t2 + tenMinutesMs) :
    countEmail (issueCode (issueCode led email c1 t1) email c2 t2) email = 1 ∧
    (verifyCode (issueCode (issueCode led email c1 t1) email c2 t2) email c1 nowMs).1 =
      .mismatch ∧
    (verifyCode (issueCode (issueCode led email c1 t1) email c2 t2) email c2 nowMs).1 =
      .success := by
  have hfind := find?_issueCode (issueCode led email c1 t1) email c2 t2
  refine ⟨countEmail_issueCode _ _ _ _, ?_, ?_⟩
  · simp only [verifyCode, hfind]
    rw [if_neg (Nat.not_lt.mpr hfresh), if_pos (fun hcc => hne hcc.symm)]
  · simp only [verifyCode, hfind]
    rw [if_neg (Nat.not_lt.mpr hfresh), if_neg (fun hn => hn rfl)]

/-- C5 witness: concrete double issuance for one email. -/
theorem c5_witness : ("111111" : String) ≠ "222222" ∧ (5 : Nat) ≤ 0 + tenMinutesMs ∧
    (countEmail (issueCode (issueCode [] "a@x.com" "111111" 0) "a@x.com" "222222" 0) "a@x.com" = 1 ∧
      (verifyCode (issueCode (issueCode [] "a@x.com" "111111" 0) "a@x.com" "222222" 0)
          "a@x.com" "111111" 5).1 = .mismatch ∧
      (verifyCode (issueCode (issueCode [] "a@x.com" "111111" 0) "a@x.com" "222222" 0)
          "a@x.com" "222222" 5).1 = .success) :=
  ⟨by decide, by decide,
    c5_reissue_invalidates_prior [] "a@x.com" "111111" "222222" 0 0 5 (by decide) (by decide)⟩

/-- C6 counterexample: the generator never produces a value below 100000,
so codes with leading zeros are impossible, contradicting the claimed
full space 000000 to 999999. -/
theorem c6_counterexample : ¬ ∃ k : Nat, genCode k < 100000 := by
  rintro ⟨k, hk⟩
  unfold genCode at hk
  generalize hg : k * 900000 / two53 = d at hk
  omega

/-- C6 amended: every issued code is the decimal string of a number in
the range 100000 to 999999 (six digits, never a leading zero), and the
send-code route stores it with expiresAt equal to issuance time plus 10
minutes. -/
theorem c6_code_range_and_expiry (db : DB) (led : Ledger) (email : String)
    (k nowMs : Nat) (hk : k < two53)
    (hadmin : (findByEmail db.admins (lowerStr email)).isSome) :
    100000 ≤ genCode k ∧ genCode k ≤ 999999 ∧
    sendCode db led email k nowMs =
      .sent (genCodeStr k) (issueCode led email (genCodeStr k) nowMs) ∧
    (issueCode led email (genCodeStr k) nowMs).find? (fun r => r.email == email) =
      some { email := email, code := genCodeStr k, expiresAtMs := nowMs + tenMinutesMs } := by
  have hk2 : k < 2 ^ 53 := by rw [two53] at hk; exact hk
  have hdiv : k * 900000 / two53 < 900000 := by
    rw [two53, Nat.div_lt_iff_lt_mul (by norm_num : (0:Nat) < 2 ^ 53)]
    calc k * 900000 < 2 ^ 53 * 900000 := Nat.mul_lt_mul_of_pos_right hk2 (by norm_num)
      _ = 900000 * 2 ^ 53 := Nat.mul_comm _ _
  have h12 : 100000 ≤ genCode k ∧ genCode k ≤ 999999 := by
    unfold genCode
    generalize hg : k * 900000 / two53 = d at hdiv
    omega
  obtain ⟨h1, h2⟩ := h12
  refine ⟨h1, h2, ?_, find?_issueCode _ _ _ _⟩
  obtain ⟨u, hu⟩ := Option.isSome_iff_exists.mp hadmin
  unfold sendCode
  rw [hu]

/-- C6 witness: a concrete admin database and randomness seed. -/
theorem c6_witness : (0 : Nat) < two53 ∧
    (findByEmail (DB.mk [] [] [⟨"a1", "Root", "root", "admin@x.com", "h"⟩]).admins
        (lowerStr "admin@x.com")).isSome = true ∧
    (100000 ≤ genCode 0 ∧ genCode 0 ≤ 999999 ∧
      sendCode (DB.mk [] [] [⟨"a1", "Root", "root", "admin@x.com", "h"⟩]) [] "admin@x.com" 0 7 =
        .sent (genCodeStr 0) (issueCode [] "admin@x.com" (genCodeStr 0) 7) ∧
      (issueCode [] "admin@x.com" (genCodeStr 0) 7).find? (fun r => r.email == "admin@x.com") =
        some { email := "admin@x.com", code := genCodeStr 0, expiresAtMs := 7 + tenMinutesMs }) :=
  ⟨by norm_num [two53], by decide,
    c6_code_range_and_expiry (DB.mk [] [] [⟨"a1", "Root", "root", "admin@x.com", "h"⟩]) []
      "admin@x.com" 0 7 (by norm_num [two53]) (by decide)⟩

/-- C1 counterexample: with a Student named amy present, creating a
Faculty with the same username and a distinct, unused email is rejected
with the duplicate-username error instead of succeeding: the signup
pre-check consults all three collections for the username. -/
theorem c1_counterexample :
    signup testHash c1db ⟨"f1", "Amy F", "amy", "amy2@x.com", "pw123456"⟩ .faculty =
      .usernameTaken ∧
    (usernameOrEmailExists c1db "amy" "amy2@x.com").2 = false :=
  ⟨by decide, by decide⟩

/-- C1 amended: username uniqueness at signup is enforced globally across
the three variants: a signup whose lowercased username already belongs to
an identity in any collection fails with the duplicate-username error,
for every requested role — in particular a duplicate within the same
variant also fails. -/
theorem c1_username_check_is_global (h : String → String) (db : DB)
    (doc : UserDoc) (role : Role) (u : UserDoc)
    (hu : u ∈ db.students ∨ u ∈ db.faculties ∨ u ∈ db.admins)
    (hname : u.username = lowerStr doc.username) :
    signup h db doc role = .usernameTaken := by
  have hbe : (u.username == lowerStr doc.username) = true := beq_iff_eq.mpr hname
  have hex1 : (usernameOrEmailExists db doc.username doc.email).1 = true := by
    unfold usernameOrEmailExists findByUsername
    rcases hu with hu | hu | hu
    · have hs : (db.students.find? (fun v => v.username == lowerStr doc.username)).isSome :=
        List.find?_isSome.mpr ⟨u, hu, hbe⟩
      simp [hs]
    · have hs : (db.faculties.find? (fun v => v.username == lowerStr doc.username)).isSome :=
        List.find?_isSome.mpr ⟨u, hu, hbe⟩
      simp [hs]
    · have hs : (db.admins.find? (fun v => v.username == lowerStr doc.username)).isSome :=
        List.find?_isSome.mpr ⟨u, hu, hbe⟩
      simp [hs]
  unfold signup
  simp [hex1]

/-- C1 witness: a same-variant duplicate with different letter case is
rejected through the amended global check. -/
theorem c1_witness :
    ((⟨"s1", "Amy", "amy", "amy@x.com", "h1"⟩ : UserDoc) ∈ c1db.students ∨
      (⟨"s1", "Amy", "amy", "amy@x.com", "h1"⟩ : UserDoc) ∈ c1db.faculties ∨
      (⟨"s1", "Amy", "amy", "amy@x.com", "h1"⟩ : UserDoc) ∈ c1db.admins) ∧
    (⟨"s1", "Amy", "amy", "amy@x.com", "h1"⟩ : UserDoc).username = lowerStr "AMY" ∧
    signup testHash c1db ⟨"s2", "Amy2", "AMY", "amy3@x.com", "pw123456"⟩ .student =
      .usernameTaken :=
  ⟨Or.inl (by decide), by decide,
    c1_username_check_is_global testHash c1db
      ⟨"s2", "Amy2", "AMY", "amy3@x.com", "pw123456"⟩ .student
      ⟨"s1", "Amy", "amy", "amy@x.com", "h1"⟩ (Or.inl (by decide)) (by decide)⟩

/-- C3: issuing a token for an identity id and role, then immediately
authenticating a request bearing that token while the identity is still
present in that role collection, attaches an identity whose id and role
equal the inputs. -/
theorem c3_token_roundtrip (envSecret : Option String) (envExpiresMs : Option Nat)
    (nowMs : Nat) (db : DB) (id : String) (r : Role) (u : UserDoc)
    (hfind : findById (coll db r) id = some u) :
    authenticate envSecret nowMs db
      (some (generateToken envSecret envExpiresMs nowMs id (some (roleStr r)))) =
      .ok r u ∧ u.id = id := by
  have hid : u.id = id := by
    have h0 := hfind
    unfold findById at h0
    have hp := List.find?_some h0
    simp only [beq_iff_eq] at hp
    exact hp
  refine ⟨?_, hid⟩
  cases r with
  | student =>
    simp only [coll] at hfind
    simp [authenticate, jwtVerify_generateToken, lookupByTokenRole, roleStr, hfind]
  | faculty =>
    simp only [coll] at hfind
    simp [authenticate, jwtVerify_generateToken, lookupByTokenRole, roleStr, hfind]
  | admin =>
    simp only [coll] at hfind
    simp [authenticate, jwtVerify_generateToken, lookupByTokenRole, roleStr, hfind]

/-- C3 witness: a concrete student id round-trips through token issuance
and request authentication. -/
theorem c3_witness :
    findById (coll c3db .student) "u1" = some ⟨"u1", "Nia", "nia", "nia@x.com", "p"⟩ ∧
    (authenticate none 0 c3db
        (some (generateToken none none 0 "u1" (some (roleStr .student)))) =
        .ok .student ⟨"u1", "Nia", "nia", "nia@x.com", "p"⟩ ∧
      (⟨"u1", "Nia", "nia", "nia@x.com", "p"⟩ : UserDoc).id = "u1") :=
  ⟨by decide,
    c3_token_roundtrip none none 0 c3db "u1" .student
      ⟨"u1", "Nia", "nia", "nia@x.com", "p"⟩ (by decide)⟩

/-- C4 (code bug): the profile-update path writes the patched password
verbatim because findByIdAndUpdate bypasses the pre-save hashing hook, so
after a profile update carrying a password the stored credential is the
plaintext itself, not a hash of it; the change-password path, which saves
the document, does hash.  This contradicts the claimed invariant that the
stored credential is always a hash of the last plaintext set. -/
theorem c4_profile_update_stores_plaintext :
    (∃ db2 u, updateUserById c4db "u1" { password := some "newsecret1" } = .updated db2 u ∧
      u.password = "newsecret1" ∧ u.password ≠ testHash "newsecret1") ∧
    changePassword testHash c4db "u1" "oldpass1" "newsecret1" =
      .changed (storeDoc c4db .student "u1"
        ⟨"u1", "Amy", "amy", "amy@x.com", testHash "newsecret1"⟩) :=
  ⟨⟨_, _, rfl, rfl, by decide⟩, by decide⟩

/-- C7 counterexample: with the signing secret unset, token issuance
succeeds using the well-known constant key, and validation accepts the
result, instead of failing loudly. -/
theorem c7_counterexample :
    (generateToken none none 0 "u1" (some "admin")).secret = "fallback-secret" ∧
    jwtVerify (generateToken none none 0 "u1" (some "admin")) "fallback-secret" 0 =
      some ⟨"u1", some "admin"⟩ :=
  ⟨rfl, by decide⟩

/-- C7 amended: when the signing-secret configuration is unset, issuance
and validation silently fall back to the well-known constant key: the
issued token is signed with it, and request authentication under the
unset secret never rejects such a fresh token as invalid. -/
theorem c7_fallback_secret_used (envExpiresMs : Option Nat) (nowMs : Nat)
    (id : String) (role : Option String) (db : DB) :
    (generateToken none envExpiresMs nowMs id role).secret = "fallback-secret" ∧
    authenticate none nowMs db (some (generateToken none envExpiresMs nowMs id role)) ≠
      .invalidToken ∧
    authenticate none nowMs db (some (generateToken none envExpiresMs nowMs id role)) ≠
      .missingToken := by
  refine ⟨rfl, ?_, ?_⟩ <;>
    (simp only [authenticate, jwtVerify_generateToken]
     rcases hx : lookupByTokenRole db ⟨id, role⟩ with _ | ⟨r, u⟩ <;> simp [hx])

/-- C8: login resolution consults only the hinted collection: a username
present only among Students resolves to nothing under a faculty or admin
hint, and the login then fails with the uniform invalid-credentials
response instead of falling through to the Student record. -/
theorem c8_role_hint_only (h : String → String) (envSecret : Option String)
    (envExpiresMs : Option Nat) (nowMs : Nat) (db : DB)
    (username password : String) (u : UserDoc)
    (hstud : findByUsername db.students (lowerStr username) = some u)
    (hfac : findByUsername db.faculties (lowerStr username) = none)
    (hadm : findByUsername db.admins (lowerStr username) = none) :
    (findUserForLogin db username .faculty).1 = none ∧
    (findUserForLogin db username .admin).1 = none ∧
    login h envSecret envExpiresMs nowMs db username password .faculty = invalidCredResp ∧
    login h envSecret envExpiresMs nowMs db username password .admin = invalidCredResp := by
  refine ⟨?_, ?_, ?_, ?_⟩ <;> simp [findUserForLogin, login, hfac, hadm]

/-- C8 witness: amy exists only as a Student; a faculty-hinted and an
admin-hinted login both fail. -/
theorem c8_witness :
    findByUsername c8db.students (lowerStr "amy") =
        some ⟨"s1", "Amy", "amy", "amy@x.com", "bcrypt2b10pw"⟩ ∧
    findByUsername c8db.faculties (lowerStr "amy") = none ∧
    findByUsername c8db.admins (lowerStr "amy") = none ∧
    ((findUserForLogin c8db "amy" .faculty).1 = none ∧
      (findUserForLogin c8db "amy" .admin).1 = none ∧
      login testHash none none 0 c8db "amy" "pw" .faculty = invalidCredResp ∧
      login testHash none none 0 c8db "amy" "pw" .admin = invalidCredResp) :=
  ⟨by decide, by decide, by decide,
    c8_role_hint_only testHash none none 0 c8db "amy" "pw"
      ⟨"s1", "Amy", "amy", "amy@x.com", "bcrypt2b10pw"⟩ (by decide) (by decide) (by decide)⟩

/-- C9: the admin login failure when no admin exists for the email is the
identical response (same 401 status, same error body) to the failure when
the admin exists but the password comparison fails, so the failure does
not reveal whether the account exists. -/
theorem c9_admin_login_indistinguishable (h : String → String)
    (envSecret : Option String) (envExpiresMs : Option Nat) (nowMs : Nat)
    (db1 db2 : DB) (email password : String) (u : UserDoc)
    (habsent : findByEmail db1.admins (lowerStr email) = none)
    (hpresent : findByEmail db2.admins (lowerStr email) = some u)
    (hwrong : comparePassword h password u.password = false) :
    adminLogin h envSecret envExpiresMs nowMs db1 email password =
      adminLogin h envSecret envExpiresMs nowMs db2 email password ∧
    adminLogin h envSecret envExpiresMs nowMs db1 email password = invalidCredResp ∧
    invalidCredResp.status = 401 ∧
    invalidCredResp.errorMsg = some "Invalid credentials" := by
  have e1 : adminLogin h envSecret envExpiresMs nowMs db1 email password = invalidCredResp := by
    simp only [adminLogin, habsent]
  have e2 : adminLogin h envSecret envExpiresMs nowMs db2 email password = invalidCredResp := by
    simp only [adminLogin, hpresent]
    simp [hwrong]
  exact ⟨e1.trans e2.symm, e1, rfl, rfl⟩

/-- C9 witness: absent admin versus wrong password on a concrete store
produce the same concrete response. -/
theorem c9_witness :
    findByEmail c9dbAbsent.admins (lowerStr "admin@x.com") = none ∧
    findByEmail c9dbPresent.admins (lowerStr "admin@x.com") = some c9admin ∧
    comparePassword testHash "wrongpw" c9admin.password = false ∧
    (adminLogin testHash none none 0 c9dbAbsent "admin@x.com" "wrongpw" =
        adminLogin testHash none none 0 c9dbPresent "admin@x.com" "wrongpw" ∧
      adminLogin testHash none none 0 c9dbAbsent "admin@x.com" "wrongpw" = invalidCredResp ∧
      invalidCredResp.status = 401 ∧
      invalidCredResp.errorMsg = some "Invalid credentials") :=
  ⟨by decide, by decide, by decide,
    c9_admin_login_indistinguishable testHash none none 0 c9dbAbsent c9dbPresent
      "admin@x.com" "wrongpw" c9admin (by decide) (by decide) (by decide)⟩

/-- C10: a validly signed, unexpired token whose payload carries no
recognised role is not rejected: authentication falls back to searching
Student, then Faculty, then Admin by the token id, attaches the first
match, and returns the user-not-found error only when the id is absent
from all three collections. -/
theorem c10_unrecognised_role_fallback (envSecret : Option String) (nowMs : Nat)
    (db : DB) (tok : Token)
    (hsec : tok.secret = envSecret.getD "fallback-secret")
    (hexp : nowMs ≤ tok.expiresAtMs)
    (h1 : tok.role ≠ some "student") (h2 : tok.role ≠ some "faculty")
    (h3 : tok.role ≠ some "admin") :
    authenticate envSecret nowMs db (some tok) =
      match findById db.students tok.userId with
      | some u => .ok .student u
      | none =>
        match findById db.faculties tok.userId with
        | some u => .ok .faculty u
        | none =>
          match findById db.admins tok.userId with
          | some u => .ok .admin u
          | none => .userNotFound := by
  have hver : jwtVerify tok (envSecret.getD "fallback-secret") nowMs =
      some ⟨tok.userId, tok.role⟩ := by
    unfold jwtVerify
    rw [if_pos ⟨hsec, hexp⟩]
  simp only [authenticate, hver]
  unfold lookupByTokenRole
  dsimp only
  rw [if_neg h2, if_neg h3, if_neg h1]
  cases findById db.students tok.userId with
  | some u => rfl
  | none =>
    cases findById db.faculties tok.userId with
    | some u => rfl
    | none =>
      cases findById db.admins tok.userId with
      | some u => rfl
      | none => rfl

/-- C10 witness: a token with role ghost authenticates via the fallback
search and attaches the Faculty record. -/
theorem c10_witness :
    (c10tok.secret = (none : Option String).getD "fallback-secret" ∧
      (0 : Nat) ≤ c10tok.expiresAtMs ∧
      c10tok.role ≠ some "student" ∧ c10tok.role ≠ some "faculty" ∧
      c10tok.role ≠ some "admin") ∧
    authenticate none 0 c10db (some c10tok) = .ok .faculty c10fac :=
  ⟨⟨rfl, by decide, by decide, by decide, by decide⟩, by
    rw [c10_unrecognised_role_fallback none 0 c10db c10tok rfl (by decide) (by decide)
      (by decide) (by decide)]
    decide⟩

end CB
